import Mathlib

/-!
Verification development for the data-access and presentation logic of
`wz_icon_viewer_gui.py` (WZ Image Viewer).

The Python module manipulates values produced by `json.load`: nested
dictionaries, lists, strings, numbers, booleans and `None`.  We embed those
values as the inductive type `Json` below, and embed each Python helper
(`load_icon_db`, `get_types`, `_is_nested_item`, `get_categories`, `get_ids`)
together with the sorting/filtering logic of `refresh_id_list` and the
downscale computation of `_on_id_selected`.  Fallible Python code (code that
can raise) is embedded as functions into `Except PyErr _`, with explicit
propagation of exceptions.
-/

/-- Values produced by Python's `json.load`: `None`, booleans, numbers,
strings, lists and dicts.  A dict is represented as its (ordered) list of
key/value pairs; keys of a dict coming from `json.load` are unique. -/
inductive Json : Type where
  | null : Json
  | bool : Bool → Json
  | num : Int → Json
  | str : String → Json
  | arr : List Json → Json
  | obj : List (String × Json) → Json

/-- The Python exceptions that the embedded code can raise. -/
inductive PyErr : Type where
  | typeError : PyErr
  | valueError : String → PyErr
  | keyError : String → PyErr
  | attributeError : PyErr
  deriving DecidableEq

/-- Python `isinstance(x, dict)`. -/
def Json.isDict : Json → Bool
  | .obj _ => true
  | _ => false

/-- Whether the character list `n` is an initial segment of `h`. -/
def listStartsWith : List Char → List Char → Bool
  | [], _ => true
  | _ :: _, [] => false
  | a :: as, b :: bs => a == b && listStartsWith as bs

/-- Whether `needle` occurs as a contiguous run inside the second list:
Python's substring test `needle in hay` on the underlying characters. -/
def listContainsSub (needle : List Char) : List Char → Bool
  | [] => listStartsWith needle []
  | c :: t => listStartsWith needle (c :: t) || listContainsSub needle t

/-- Python's substring test `needle in hay` on strings. -/
def strContains (hay needle : String) : Bool := listContainsSub needle.data hay.data

/-- Python's membership test `k in x` for a string `k`: key membership for a
dict, element equality for a list, substring test for a string, and
`TypeError` for the non-container values (`None`, booleans, numbers). -/
def pyContains (x : Json) (k : String) : Except PyErr Bool :=
  match x with
  | .obj kvs => .ok (kvs.any fun p => p.1 == k)
  | .arr xs => .ok (xs.any fun j => match j with | .str t => t == k | _ => false)
  | .str t => .ok (listContainsSub k.data t.data)
  | _ => .error .typeError

/-- Python's subscript `x[k]` with a string key: dict lookup (raising
`KeyError` when the key is missing), `TypeError` on every other value
(lists and strings reject string indices). -/
def pySubscript (x : Json) (k : String) : Except PyErr Json :=
  match x with
  | .obj kvs =>
    match List.lookup k kvs with
    | some v => .ok v
    | none => .error (.keyError k)
  | _ => .error .typeError

/-- Python's `x.get(k, d)`: dict lookup with default `d`; `AttributeError`
when `x` is not a dict (no `get` attribute). -/
def pyDictGetD (x : Json) (k : String) (d : Json) : Except PyErr Json :=
  match x with
  | .obj kvs => .ok ((List.lookup k kvs).getD d)
  | _ => .error .attributeError

/-- Python's string comparison `a <= b` on the underlying character lists:
lexicographic by Unicode code point. -/
def listLexLe : List Char → List Char → Bool
  | [], _ => true
  | _ :: _, [] => false
  | a :: as, b :: bs =>
    if a.toNat < b.toNat then true
    else if b.toNat < a.toNat then false
    else listLexLe as bs

/-- Python's string comparison `a <= b`. -/
def strLexLe (a b : String) : Bool := listLexLe a.data b.data

/-- The order used by Python's default `sorted` on strings, as a relation. -/
def strLexLeP (a b : String) : Prop := strLexLe a b = true

instance : DecidableRel strLexLeP :=
  fun a b => inferInstanceAs (Decidable (strLexLe a b = true))

/-- Python's `sorted(...)` on a list of strings (default ascending order;
`sorted` is a stable sort, embedded as insertion sort). -/
def pySorted (l : List String) : List String := List.insertionSort strLexLeP l

/-- Embedding of `load_icon_db` (lines 35-43), applied to the value parsed by `json.load`:
raise `ValueError` when the top-level value is not a dict, otherwise return
the parsed dict unchanged. -/
def load_icon_db (data : Json) : Except PyErr Json :=
  if data.isDict then .ok data
  else .error (.valueError "icon_db.json must contain a top-level JSON object")

/-- Embedding of `get_types` (lines 46-50): `[]` when the database is not a dict, else
`sorted(str(k) for k in icon_db.keys())`; keys are already strings, so
`str(k)` is the identity. -/
def get_types (icon_db : Json) : List String :=
  match icon_db with
  | .obj kvs => pySorted (kvs.map fun p => p.1)
  | _ => []

/-- Embedding of `_is_nested_item` (lines 53-64): `False` when the type is absent or its
value is not a dict; otherwise `True` iff some immediate value is a dict.
The membership test and the subscript can raise, and the exception
propagates. -/
def _is_nested_item (icon_db : Json) (type_name : String) : Except PyErr Bool :=
  match pyContains icon_db type_name with
  | .error e => .error e
  | .ok false => .ok false
  | .ok true =>
    match pySubscript icon_db type_name with
    | .error e => .error e
    | .ok data =>
      match data with
      | .obj kvs => .ok (kvs.any fun p => p.2.isDict)
      | _ => .ok false

/-- Embedding of `get_categories` (lines 67-75): `[]` unless the type is nested, else the
sorted keys of `icon_db.get(type_name, {})`.  (`.keys()` on a non-dict would
raise `AttributeError`; that branch is unreachable when the type is nested.) -/
def get_categories (icon_db : Json) (type_name : String) : Except PyErr (List String) :=
  match _is_nested_item icon_db type_name with
  | .error e => .error e
  | .ok false => .ok []
  | .ok true =>
    match pyDictGetD icon_db type_name (Json.obj []) with
    | .error e => .error e
    | .ok data =>
      match data with
      | .obj kvs => .ok (pySorted (kvs.map fun p => p.1))
      | _ => .error .attributeError

/-- Python truthiness of the `category` argument of `get_ids` (`None` or a
string): `False` for `None` and for the empty string. -/
def optTruthy : Option String → Bool
  | none => false
  | some s => !(s == "")

/-- Embedding of `get_ids` (lines 78-105): the empty dict when the type is absent; otherwise fetch
`data = icon_db[type_name]`; when the type is named `"Item"` and is nested,
a falsy category yields `{}` and a truthy one yields `data.get(category)`
when that is a dict, else `{}`; every other case is the flat branch, which
returns `data`'s pairs when `data` is a dict and `{}` otherwise.  Keys of
the returned dicts are already strings, so `str(k)` is the identity. -/
def get_ids (icon_db : Json) (type_name : String) (category : Option String) :
    Except PyErr (List (String × Json)) :=
  match pyContains icon_db type_name with
  | .error e => .error e
  | .ok false => .ok []
  | .ok true =>
    match pySubscript icon_db type_name with
    | .error e => .error e
    | .ok data =>
      match (if type_name == "Item" then _is_nested_item icon_db "Item" else .ok false) with
      | .error e => .error e
      | .ok true =>
        if optTruthy category then
          match pyDictGetD data (category.getD "") Json.null with
          | .error e => .error e
          | .ok sub =>
            match sub with
            | .obj kvs => .ok kvs
            | _ => .ok []
        else .ok []
      | .ok false =>
        match data with
        | .obj kvs => .ok kvs
        | _ => .ok []

/-- Python `s.isdigit()` for ASCII identifiers: nonempty and all digits. -/
def pyIsDigit (s : String) : Bool := !s.data.isEmpty && s.data.all Char.isDigit

/-- Python `int(s)` on a digit string: its decimal value. -/
def pyInt (s : String) : Nat := s.data.foldl (fun n c => 10 * n + (c.toNat - 48)) 0

/-- The comparison induced by `sort_key` in `refresh_id_list` (lines 464-467):
keys are `(0, int(s))` for digit strings and `(1, s)` otherwise, compared in
Python tuple order. -/
def sort_key_le (a b : String) : Bool :=
  if pyIsDigit a then
    if pyIsDigit b then decide (pyInt a ≤ pyInt b) else true
  else
    if pyIsDigit b then false else strLexLe a b

/-- The `sort_key` comparison as a relation. -/
def sortKeyLeP (a b : String) : Prop := sort_key_le a b = true

instance : DecidableRel sortKeyLeP :=
  fun a b => inferInstanceAs (Decidable (sort_key_le a b = true))

/-- Embedding of `ids.sort(key=sort_key)` in `refresh_id_list` (line 467): a stable sort
by the key order, embedded as insertion sort. -/
def sortIds (ids : List String) : List String := List.insertionSort sortKeyLeP ids

/-- Python `s.strip()`: drop whitespace from both ends. -/
def pyStrip (s : String) : String :=
  String.mk (((s.data.dropWhile Char.isWhitespace).reverse.dropWhile Char.isWhitespace).reverse)

/-- The id list built by `refresh_id_list` (lines 460-473) from the current
entries and the text of the filter box: take the keys, sort them with
`sort_key`, and when the stripped filter text is truthy keep only the ids
containing it as a substring. -/
def visible_ids (entries : List (String × Json)) (filterText : String) : List String :=
  if pyStrip filterText = "" then sortIds (entries.map fun p => p.1)
  else (sortIds (entries.map fun p => p.1)).filter fun i => strContains i (pyStrip filterText)

/-- The subsample factor actually applied by `_on_id_selected`
(lines 515-522) to an image of natural size `w × h`: outside the
`w > 512 or h > 512` branch no subsampling happens (factor 1); inside it,
`scale = int(max(w / 512, h / 512))` — division by the power of two `512`
is exact in binary floating point and `int` truncates toward zero, so for
naturals this is `max w h / 512` in integer division — then clamped to a
minimum of 1. -/
def applied_scale (w h : Nat) : Nat :=
  if w > 512 || h > 512 then
    let scale := max w h / 512
    if scale < 1 then 1 else scale
  else 1

/-- Modelled from the spec for comparison with `applied_scale`: the factor
`ceil(max(w / 512, h / 512))` clamped to a minimum of 1, as the spec's
Image Loader section words it, inside the same `w > 512 or h > 512` branch. -/
def spec_ceil_scale (w h : Nat) : Nat :=
  if w > 512 || h > 512 then max ((max w h + 511) / 512) 1
  else 1

/-! Helper lemmas -/

/-- The membership test over a dict's pairs agrees with `List.lookup`. -/
theorem anyKey_eq_isSome (t : String) (kvs : List (String × Json)) :
    (kvs.any fun p => p.1 == t) = (List.lookup t kvs).isSome := by
  induction kvs with
  | nil => rfl
  | cons p rest ih =>
    obtain ⟨k, v⟩ := p
    simp only [List.any_cons, List.lookup]
    by_cases h : t = k
    · subst h; simp
    · have hk : (k == t) = false := beq_eq_false_iff_ne.mpr (Ne.symm h)
      have ht : (t == k) = false := beq_eq_false_iff_ne.mpr h
      rw [hk, ht, ih]
      simp

/-- The lexicographic comparison on character lists is total. -/
theorem listLexLe_total : ∀ as bs : List Char, listLexLe as bs = true ∨ listLexLe bs as = true
  | [], _ => Or.inl rfl
  | _ :: _, [] => Or.inr rfl
  | a :: as, b :: bs => by
    simp only [listLexLe]
    rcases Nat.lt_trichotomy a.toNat b.toNat with h | h | h
    · left; simp [h]
    · have h1 : ¬ a.toNat < b.toNat := by omega
      have h2 : ¬ b.toNat < a.toNat := by omega
      simp only [h1, h2, if_false]
      exact listLexLe_total as bs
    · right; simp [h]

/-- The lexicographic comparison on character lists is transitive. -/
theorem listLexLe_trans : ∀ as bs cs : List Char,
    listLexLe as bs = true → listLexLe bs cs = true → listLexLe as cs = true
  | [], _, _ => fun _ _ => rfl
  | _ :: _, [], _ => fun h _ => by simp [listLexLe] at h
  | _ :: _, _ :: _, [] => fun _ h => by simp [listLexLe] at h
  | a :: as, b :: bs, c :: cs => fun h1 h2 => by
    simp only [listLexLe] at h1 h2 ⊢
    by_cases hab : a.toNat < b.toNat
    · by_cases hbc : b.toNat < c.toNat
      · simp [show a.toNat < c.toNat from by omega]
      · by_cases hcb : c.toNat < b.toNat
        · simp [hbc, hcb] at h2
        · simp [show a.toNat < c.toNat from by omega]
    · by_cases hba : b.toNat < a.toNat
      · simp [hab, hba] at h1
      · by_cases hbc : b.toNat < c.toNat
        · simp [show a.toNat < c.toNat from by omega]
        · by_cases hcb : c.toNat < b.toNat
          · simp [hbc, hcb] at h2
          · have h1x : listLexLe as bs = true := by simpa [hab, hba] using h1
            have h2x : listLexLe bs cs = true := by simpa [hbc, hcb] using h2
            have hac : ¬ a.toNat < c.toNat := by omega
            have hca : ¬ c.toNat < a.toNat := by omega
            simp only [hac, hca, if_false]
            exact listLexLe_trans as bs cs h1x h2x

instance : IsTotal String strLexLeP :=
  ⟨fun a b => listLexLe_total a.data b.data⟩

instance : IsTrans String strLexLeP :=
  ⟨fun a b c => listLexLe_trans a.data b.data c.data⟩

/-- The `sort_key` comparison is total. -/
theorem sort_key_le_total (a b : String) :
    sort_key_le a b = true ∨ sort_key_le b a = true := by
  by_cases ha : pyIsDigit a = true
  · by_cases hb : pyIsDigit b = true
    · simp only [sort_key_le, ha, hb, if_true, decide_eq_true_eq]
      exact Nat.le_total _ _
    · simp [sort_key_le, ha, hb]
  · by_cases hb : pyIsDigit b = true
    · simp [sort_key_le, ha, hb]
    · simp only [sort_key_le, ha, hb, if_false]
      exact listLexLe_total a.data b.data

/-- The `sort_key` comparison is transitive. -/
theorem sort_key_le_trans (a b c : String) :
    sort_key_le a b = true → sort_key_le b c = true → sort_key_le a c = true := by
  intro h1 h2
  unfold sort_key_le at h1 h2 ⊢
  by_cases ha : pyIsDigit a = true <;> by_cases hb : pyIsDigit b = true <;>
    by_cases hc : pyIsDigit c = true <;> simp [ha, hb, hc] at h1 h2 ⊢
  · exact Nat.le_trans h1 h2
  · exact listLexLe_trans a.data b.data c.data h1 h2

instance : IsTotal String sortKeyLeP := ⟨sort_key_le_total⟩

instance : IsTrans String sortKeyLeP := ⟨sort_key_le_trans⟩

/-- The function `listStartsWith` captures exactly the initial-segment relation. -/
theorem listStartsWith_iff (n : List Char) : ∀ h : List Char,
    listStartsWith n h = true ↔ ∃ t, h = n ++ t := by
  induction n with
  | nil =>
    intro h
    simp [listStartsWith]
  | cons a as ih =>
    intro h
    cases h with
    | nil =>
      constructor
      · intro hx; exact absurd hx (by simp [listStartsWith])
      · rintro ⟨t, hx⟩; exact absurd hx (by simp)
    | cons b bs =>
      simp only [listStartsWith, Bool.and_eq_true, beq_iff_eq, ih, List.cons_append,
        List.cons.injEq]
      constructor
      · rintro ⟨rfl, t, rfl⟩; exact ⟨t, rfl, rfl⟩
      · rintro ⟨t, rfl, rfl⟩; exact ⟨rfl, t, rfl⟩

/-- The function `listContainsSub` captures exactly the contiguous-run (substring)
relation. -/
theorem listContainsSub_iff (n : List Char) : ∀ h : List Char,
    listContainsSub n h = true ↔ ∃ p t, h = p ++ n ++ t := by
  intro h
  induction h with
  | nil =>
    rw [listContainsSub, listStartsWith_iff]
    constructor
    · rintro ⟨t, ht⟩; exact ⟨[], t, by simpa using ht⟩
    · rintro ⟨p, t, ht⟩
      have h1 : (p ++ n) ++ t = [] := ht.symm
      have h2 : p ++ n = [] ∧ t = [] := List.append_eq_nil.mp h1
      have h3 : p = [] ∧ n = [] := List.append_eq_nil.mp h2.1
      exact ⟨[], by simp [h3.2]⟩
  | cons c t ih =>
    simp only [listContainsSub, Bool.or_eq_true, listStartsWith_iff, ih]
    constructor
    · rintro (⟨t2, hx⟩ | ⟨p, t2, hx⟩)
      · exact ⟨[], t2, by simpa using hx⟩
      · exact ⟨c :: p, t2, by simp [hx]⟩
    · rintro ⟨p, t2, hp⟩
      cases p with
      | nil => exact Or.inl ⟨t2, by simpa using hp⟩
      | cons x xs =>
        have hx : c = x ∧ t = xs ++ n ++ t2 := by simpa using hp
        exact Or.inr ⟨xs, t2, hx.2⟩

/-- The needle occurs as a substring of `hay` (contiguous run of characters). -/
def SubstrOf (needle hay : String) : Prop :=
  ∃ p t, hay.data = p ++ needle.data ++ t

/-- The function `strContains` decides the substring relation. -/
theorem strContains_iff (hay needle : String) :
    strContains hay needle = true ↔ SubstrOf needle hay :=
  listContainsSub_iff needle.data hay.data

/-- The empty needle is a substring of everything. -/
theorem listContainsSub_nil : ∀ h : List Char, listContainsSub [] h = true := by
  intro h
  cases h <;> simp [listContainsSub, listStartsWith]

/-- Python: the empty string is a substring of every string. -/
theorem strContains_empty (i : String) : strContains i "" = true :=
  listContainsSub_nil i.data

/-- Normal form of `_is_nested_item` on a dict database: look the type up
and test whether it is a dict with some dict among its immediate values. -/
theorem is_nested_obj (kvs : List (String × Json)) (t : String) :
    _is_nested_item (Json.obj kvs) t =
      Except.ok (match List.lookup t kvs with
        | some (Json.obj m) => m.any fun p => p.2.isDict
        | _ => false) := by
  cases hl : List.lookup t kvs with
  | none => simp [_is_nested_item, pyContains, anyKey_eq_isSome, hl]
  | some v =>
    cases v <;> simp [_is_nested_item, pyContains, pySubscript, anyKey_eq_isSome, hl]

/-- The function `get_categories` answers the empty list whenever the type is not
nested. -/
theorem get_categories_of_not_nested (db : Json) (t : String)
    (h : _is_nested_item db t = Except.ok false) : get_categories db t = Except.ok [] := by
  unfold get_categories
  rw [h]

/-! The claims -/

/-- Claim C6: applied to a parsed top-level JSON value, `load_icon_db` fails
with the format `ValueError` exactly when that value is not a dict, and when
it is a dict it returns the parsed value unchanged. -/
theorem load_icon_db_format (data : Json) :
    (load_icon_db data =
        Except.error (PyErr.valueError "icon_db.json must contain a top-level JSON object") ↔
      data.isDict = false) ∧
    (data.isDict = true → load_icon_db data = Except.ok data) := by
  cases data <;> simp [load_icon_db, Json.isDict]

/-- Witness for C6 at the empty dict: a dict input loads unchanged. -/
theorem load_icon_db_format_witness :
    load_icon_db (Json.obj []) = Except.ok (Json.obj []) :=
  (load_icon_db_format (Json.obj [])).2 rfl

/-- Claim C7: on a loaded index (a dict), `get_types` returns exactly the
top-level keys — a permutation of them — sorted by Python's case-sensitive
code-point lexicographic string order. -/
theorem get_types_sorted_keys (kvs : List (String × Json)) :
    List.Perm (get_types (Json.obj kvs)) (kvs.map fun p => p.1) ∧
    List.Pairwise strLexLeP (get_types (Json.obj kvs)) := by
  constructor
  · exact List.perm_insertionSort strLexLeP (kvs.map fun p => p.1)
  · exact List.sorted_insertionSort strLexLeP (kvs.map fun p => p.1)

/-- The concrete two-type index of the end-to-end scenario. -/
def demoDb : Json :=
  Json.obj [("Item", Json.obj [("Cash", Json.obj [("1002186", Json.str "cash/1002186.png")])]),
            ("Mob", Json.obj [("100100", Json.str "mob/100100.png")])]

/-- Claim C8: on the concrete index with a nested "Item" and a flat "Mob",
the types are Item and Mob, Item's categories are exactly Cash, the ids of
Item/Cash are exactly 1002186, and the ids of the flat Mob are exactly
100100. -/
theorem end_to_end_demo :
    get_types demoDb = ["Item", "Mob"] ∧
    get_categories demoDb "Item" = Except.ok ["Cash"] ∧
    get_ids demoDb "Item" (some "Cash") =
      Except.ok [("1002186", Json.str "cash/1002186.png")] ∧
    get_ids demoDb "Mob" none = Except.ok [("100100", Json.str "mob/100100.png")] :=
  ⟨rfl, rfl, rfl, rfl⟩

/-- Claim C2 (code bug): `_on_id_selected` truncates the downscale factor
with `int(...)` instead of taking the ceiling the spec asks for, so a
1023×100 image gets factor 1 and is displayed 1023 pixels wide, beyond the
512-pixel bound, while the ceiling factor would be 2; on the spec's own
1024×2048 example truncation and ceiling agree on 4. -/
theorem applied_scale_truncates :
    applied_scale 1023 100 = 1 ∧ spec_ceil_scale 1023 100 = 2 ∧
    1023 / applied_scale 1023 100 = 1023 ∧ 512 < 1023 / applied_scale 1023 100 ∧
    applied_scale 1024 2048 = 4 ∧ spec_ceil_scale 1024 2048 = 4 := by
  decide

/-- Claim C3: sorting ids with `sort_key` returns a permutation of the input
in which digit-string ids, ordered by their decimal value, come before all
other ids, which are ordered lexicographically; and the concrete list
10, 2, abc, 1 sorts to 1, 2, 10, abc. -/
theorem sortIds_partitions (ids : List String) :
    List.Perm (sortIds ids) ids ∧
    List.Pairwise (fun a b =>
      (pyIsDigit a = true ∧ pyIsDigit b = true ∧ pyInt a ≤ pyInt b) ∨
      (pyIsDigit a = true ∧ pyIsDigit b = false) ∨
      (pyIsDigit a = false ∧ pyIsDigit b = false ∧ strLexLe a b = true)) (sortIds ids) ∧
    sortIds ["10", "2", "abc", "1"] = ["1", "2", "10", "abc"] := by
  refine ⟨List.perm_insertionSort sortKeyLeP ids, ?_, by decide⟩
  have h : List.Pairwise sortKeyLeP (sortIds ids) :=
    List.sorted_insertionSort sortKeyLeP ids
  refine h.imp ?_
  intro a b hab
  unfold sortKeyLeP sort_key_le at hab
  by_cases ha : pyIsDigit a = true <;> by_cases hb : pyIsDigit b = true <;>
    simp [ha, hb] at hab ⊢
  · exact hab
  · exact hab

/-- Claim C4 counterexample: with ids 100, 200, Abc and a single space as
the filter text, the code strips the filter to the empty string and shows
all three ids, although none of them contains the space as a substring. -/
theorem visible_ids_space_filter :
    visible_ids [("100", Json.null), ("200", Json.null), ("Abc", Json.null)] " " =
      ["100", "200", "Abc"] ∧
    ¬ SubstrOf " " "100" := by
  constructor
  · decide
  · intro hsub
    exact absurd ((strContains_iff "100" " ").mpr hsub) (by decide)

/-- Claim C4 (amended): the displayed list is exactly the sorted ids that
contain the stripped filter text (leading and trailing whitespace removed)
as a case-sensitive substring, it is a sublist of the sorted list — so the
sorted order is preserved — and ids 100, 200, Abc with filter 0 display
as 100, 200. -/
theorem visible_ids_filter_after_sort (entries : List (String × Json)) (ft : String) :
    visible_ids entries ft =
      (sortIds (entries.map fun p => p.1)).filter (fun i => strContains i (pyStrip ft)) ∧
    List.Sublist (visible_ids entries ft) (sortIds (entries.map fun p => p.1)) ∧
    visible_ids [("100", Json.null), ("200", Json.null), ("Abc", Json.null)] "0" =
      ["100", "200"] := by
  have hmain : visible_ids entries ft =
      (sortIds (entries.map fun p => p.1)).filter (fun i => strContains i (pyStrip ft)) := by
    unfold visible_ids
    by_cases h : pyStrip ft = ""
    · rw [if_pos h, h]
      refine (List.filter_eq_self.mpr ?_).symm
      intro a _
      exact strContains_empty a
    · rw [if_neg h]
  refine ⟨hmain, ?_, by decide⟩
  rw [hmain]
  exact List.filter_sublist _

/-- Claim C5: on a dict index, `_is_nested_item` answers true exactly when
the type maps to a dict one of whose immediate values is itself a dict; and
when the type maps to a dict all of whose immediate values are non-dicts it
answers false and `get_categories` answers the empty sequence. -/
theorem is_nested_iff (kvs : List (String × Json)) (t : String) :
    (_is_nested_item (Json.obj kvs) t = Except.ok true ↔
      ∃ m, List.lookup t kvs = some (Json.obj m) ∧ (m.any fun p => p.2.isDict) = true) ∧
    (∀ m, List.lookup t kvs = some (Json.obj m) → (m.all fun p => !p.2.isDict) = true →
      _is_nested_item (Json.obj kvs) t = Except.ok false ∧
        get_categories (Json.obj kvs) t = Except.ok []) := by
  constructor
  · rw [is_nested_obj]
    cases hl : List.lookup t kvs with
    | none => simp
    | some v => cases v <;> simp
  · intro m hm hall
    have hany : (m.any fun p => p.2.isDict) = false := by
      rw [List.any_eq_false]
      intro p hp
      have hx := List.all_eq_true.mp hall p hp
      simp only [Bool.not_eq_true'] at hx
      simp [hx]
    have hfalse : _is_nested_item (Json.obj kvs) t = Except.ok false := by
      simp [is_nested_obj, hm, hany]
    exact ⟨hfalse, get_categories_of_not_nested _ _ hfalse⟩

/-- Witness for C5: a type mapping to a dict with one non-dict value is not
nested and has no categories. -/
theorem is_nested_iff_witness :
    _is_nested_item (Json.obj [("Mob", Json.obj [("1", Json.str "x")])]) "Mob" =
        Except.ok false ∧
      get_categories (Json.obj [("Mob", Json.obj [("1", Json.str "x")])]) "Mob" =
        Except.ok [] :=
  (is_nested_iff [("Mob", Json.obj [("1", Json.str "x")])] "Mob").2
    [("1", Json.str "x")] rfl rfl

/-- An index whose type "Mob" is nested (its value contains a sub-dict). -/
def nestedMobDb : Json :=
  Json.obj [("Mob", Json.obj [("Cash", Json.obj [("1", Json.str "p")])])]

/-- Claim C1 counterexample: "Mob" is a nested type here, yet `get_ids` with
category "Cash" does not return the category's mapping (whose only key is
"1"); the nested handling applies only to the name "Item", so the flat
branch runs and the whole type mapping, with key "Cash", comes back. -/
theorem get_ids_nested_nonItem_whole_mapping :
    _is_nested_item nestedMobDb "Mob" = Except.ok true ∧
    Except.map (fun l => l.map fun p => p.1) (get_ids nestedMobDb "Mob" (some "Cash")) =
      Except.ok ["Cash"] ∧
    ("Cash" : String) ≠ "1" :=
  ⟨rfl, rfl, by decide⟩

/-- Claim C1 (amended): `get_ids` returns the chosen category's mapping only
for the type named "Item" when it is nested (empty when the category's value
is absent or not a dict); every other present type whose value is a dict —
including nested types not named "Item", and a non-nested "Item" — gets its
whole mapping returned directly; an absent type yields the empty mapping. -/
theorem get_ids_dispatch :
    (∀ kvs t c, List.lookup t kvs = none →
      get_ids (Json.obj kvs) t c = Except.ok []) ∧
    (∀ kvs t c m, t ≠ "Item" → List.lookup t kvs = some (Json.obj m) →
      get_ids (Json.obj kvs) t c = Except.ok m) ∧
    (∀ kvs m c sub, List.lookup "Item" kvs = some (Json.obj m) →
      (m.any fun p => p.2.isDict) = true → c ≠ "" →
      List.lookup c m = some (Json.obj sub) →
      get_ids (Json.obj kvs) "Item" (some c) = Except.ok sub) ∧
    (∀ kvs m c, List.lookup "Item" kvs = some (Json.obj m) →
      (m.any fun p => p.2.isDict) = true → c ≠ "" →
      (∀ j, List.lookup c m = some j → j.isDict = false) →
      get_ids (Json.obj kvs) "Item" (some c) = Except.ok []) ∧
    (∀ kvs m c, List.lookup "Item" kvs = some (Json.obj m) →
      (m.any fun p => p.2.isDict) = false →
      get_ids (Json.obj kvs) "Item" c = Except.ok m) := by
  refine ⟨?_, ?_, ?_, ?_, ?_⟩
  · intro kvs t c hl
    simp [get_ids, pyContains, anyKey_eq_isSome, hl]
  · intro kvs t c m ht hl
    have ht2 : (t == "Item") = false := beq_eq_false_iff_ne.mpr ht
    simp [get_ids, pyContains, pySubscript, anyKey_eq_isSome, hl, ht2]
  · intro kvs m c sub hm hany hc hsub
    have hc2 : (c == "") = false := beq_eq_false_iff_ne.mpr hc
    simp [get_ids, pyContains, pySubscript, anyKey_eq_isSome, hm, is_nested_obj, hany,
      optTruthy, hc2, pyDictGetD, hsub]
  · intro kvs m c hm hany hc hnd
    have hc2 : (c == "") = false := beq_eq_false_iff_ne.mpr hc
    cases hcl : List.lookup c m with
    | none =>
      simp [get_ids, pyContains, pySubscript, anyKey_eq_isSome, hm, is_nested_obj, hany,
        optTruthy, hc2, pyDictGetD, hcl]
    | some j =>
      have hj := hnd j hcl
      cases j
      case obj o => exact absurd hj (by simp [Json.isDict])
      all_goals
        simp [get_ids, pyContains, pySubscript, anyKey_eq_isSome, hm, is_nested_obj, hany,
          optTruthy, hc2, pyDictGetD, hcl]
  · intro kvs m c hm hany
    simp [get_ids, pyContains, pySubscript, anyKey_eq_isSome, hm, is_nested_obj, hany]

/-- Witness for C1 (amended), exercising each branch on concrete indices:
an absent type, a nested non-"Item" type, a nested "Item" with a present
category, a nested "Item" whose category value is not a dict, and a flat
"Item". -/
theorem get_ids_dispatch_witness :
    get_ids (Json.obj []) "Mob" none = Except.ok [] ∧
    get_ids nestedMobDb "Mob" none =
      Except.ok [("Cash", Json.obj [("1", Json.str "p")])] ∧
    get_ids (Json.obj [("Item", Json.obj [("Cash", Json.obj [("7", Json.str "q")])])])
      "Item" (some "Cash") = Except.ok [("7", Json.str "q")] ∧
    get_ids (Json.obj [("Item", Json.obj [("Cash", Json.str "x"), ("Sub", Json.obj [])])])
      "Item" (some "Cash") = Except.ok [] ∧
    get_ids (Json.obj [("Item", Json.obj [("100", Json.str "i.png")])]) "Item" none =
      Except.ok [("100", Json.str "i.png")] := by
  refine ⟨get_ids_dispatch.1 [] "Mob" none rfl,
    get_ids_dispatch.2.1 _ "Mob" none _ (by decide) rfl,
    get_ids_dispatch.2.2.1 _ [("Cash", Json.obj [("7", Json.str "q")])] "Cash"
      [("7", Json.str "q")] rfl rfl (by decide) rfl,
    get_ids_dispatch.2.2.2.1 _ [("Cash", Json.str "x"), ("Sub", Json.obj [])] "Cash"
      rfl rfl (by decide) ?_,
    get_ids_dispatch.2.2.2.2 _ [("100", Json.str "i.png")] none rfl rfl⟩
  intro j hj
  rw [show List.lookup "Cash" [("Cash", Json.str "x"), ("Sub", Json.obj [])] =
    some (Json.str "x") from rfl] at hj
  cases hj
  rfl

/-- Claim C9 counterexample: with the number 5 as the database,
`_is_nested_item` raises `TypeError` from the membership test instead of
returning false without error. -/
theorem is_nested_raises_on_number :
    _is_nested_item (Json.num 5) "Item" = Except.error PyErr.typeError ∧
    Except.error PyErr.typeError ≠ (Except.ok false : Except PyErr Bool) :=
  ⟨rfl, fun h => Except.noConfusion h⟩

/-- Claim C9 (amended): `get_types` is total and returns the empty list on
every non-dict database; on a dict database `_is_nested_item` and `get_ids`
return false resp. the empty mapping, without raising, when the type is
absent or its value is not a dict; but on a non-container database (a
number, a boolean or `None`) `_is_nested_item` and `get_ids` raise
`TypeError` from the membership test. -/
theorem query_totality :
    (∀ j : Json, j.isDict = false → get_types j = []) ∧
    (∀ kvs t c, List.lookup t kvs = none →
      _is_nested_item (Json.obj kvs) t = Except.ok false ∧
      get_ids (Json.obj kvs) t c = Except.ok []) ∧
    (∀ kvs t c v, List.lookup t kvs = some v → v.isDict = false →
      _is_nested_item (Json.obj kvs) t = Except.ok false ∧
      get_ids (Json.obj kvs) t c = Except.ok []) ∧
    (∀ (t : String) (c : Option String) (n : Int) (b : Bool),
      _is_nested_item (Json.num n) t = Except.error PyErr.typeError ∧
      get_ids (Json.num n) t c = Except.error PyErr.typeError ∧
      _is_nested_item Json.null t = Except.error PyErr.typeError ∧
      _is_nested_item (Json.bool b) t = Except.error PyErr.typeError ∧
      get_ids Json.null t c = Except.error PyErr.typeError ∧
      get_ids (Json.bool b) t c = Except.error PyErr.typeError) := by
  refine ⟨?_, ?_, ?_, ?_⟩
  · intro j hj
    cases j <;> first | rfl | simp [Json.isDict] at hj
  · intro kvs t c hl
    constructor
    · simp [is_nested_obj, hl]
    · simp [get_ids, pyContains, anyKey_eq_isSome, hl]
  · intro kvs t c v hl hv
    have hnest : _is_nested_item (Json.obj kvs) t = Except.ok false := by
      rw [is_nested_obj]
      cases v <;> simp [hl]
      simp [Json.isDict] at hv
    refine ⟨hnest, ?_⟩
    by_cases ht : t = "Item"
    · subst ht
      cases v <;>
        simp [get_ids, pyContains, pySubscript, anyKey_eq_isSome, hl, hnest]
      simp [Json.isDict] at hv
    · have ht2 : (t == "Item") = false := beq_eq_false_iff_ne.mpr ht
      cases v <;>
        simp [get_ids, pyContains, pySubscript, anyKey_eq_isSome, hl, ht2]
      simp [Json.isDict] at hv
  · intro t c n b
    exact ⟨rfl, rfl, rfl, rfl, rfl, rfl⟩

/-- Witness for C9 (amended): concrete instances of each part — a number
database for `get_types`, an absent type, a present type with a non-dict
value, and the raising non-container cases. -/
theorem query_totality_witness :
    get_types (Json.num 3) = [] ∧
    (_is_nested_item (Json.obj [("A", Json.null)]) "B" = Except.ok false ∧
      get_ids (Json.obj [("A", Json.null)]) "B" none = Except.ok []) ∧
    (_is_nested_item (Json.obj [("A", Json.null)]) "A" = Except.ok false ∧
      get_ids (Json.obj [("A", Json.null)]) "A" none = Except.ok []) ∧
    get_ids (Json.num 3) "A" none = Except.error PyErr.typeError :=
  ⟨query_totality.1 (Json.num 3) rfl,
   query_totality.2.1 [("A", Json.null)] "B" none rfl,
   query_totality.2.2.1 [("A", Json.null)] "A" none Json.null rfl rfl,
   (query_totality.2.2.2 "A" none 3 true).2.1⟩

/-- Claim C10: whenever the type "Item" is nested, `get_ids` with the
category omitted (`None`) or equal to the empty string returns the empty
mapping — both are falsy in Python and short-circuit before the category
lookup. -/
theorem get_ids_item_falsy_category (db : Json)
    (h : _is_nested_item db "Item" = Except.ok true) :
    get_ids db "Item" none = Except.ok [] ∧
    get_ids db "Item" (some "") = Except.ok [] := by
  have h0 := h
  unfold _is_nested_item at h0
  cases hcc : pyContains db "Item" with
  | error e => rw [hcc] at h0; simp at h0
  | ok b =>
    rw [hcc] at h0
    cases b with
    | false => simp at h0
    | true =>
      cases hs : pySubscript db "Item" with
      | error e => rw [hs] at h0; simp at h0
      | ok data =>
        refine ⟨?_, ?_⟩ <;> simp [get_ids, hcc, hs, h, optTruthy]

/-- Witness for C10 at a concrete nested "Item" index. -/
theorem get_ids_item_falsy_category_witness :
    get_ids (Json.obj [("Item", Json.obj [("Cash", Json.obj [])])]) "Item" none =
        Except.ok [] ∧
      get_ids (Json.obj [("Item", Json.obj [("Cash", Json.obj [])])]) "Item" (some "") =
        Except.ok [] :=
  get_ids_item_falsy_category _ rfl
